import Mathlib

/-!
Shallow embedding of the recoveries-agent tool-dispatch server:
the MCP dispatcher (src/mcp-server/src/index.ts) and the HTTP tool
server (src/unnamed/part_003), over the data store described by
src/database/schema.sql.
-/

namespace RecoveriesAgent

/-! ### JSON argument values

Tool arguments arrive as JSON objects; this mirrors the dynamic values
the dispatchers receive. Numbers are modelled as rationals. -/

inductive JValue where
  | str : String → JValue
  | num : Rat → JValue
  | jbool : Bool → JValue
  | null : JValue
  | arr : List JValue → JValue
  | obj : List (String × JValue) → JValue
deriving Repr, Inhabited

/-- JS property access `o.k` on a plain object: the field value when present. -/
def jGet (fields : List (String × JValue)) (k : String) : Option JValue :=
  (fields.find? (fun p => p.1 = k)).map (fun p => p.2)

/-- Fields of an object value; non-objects expose no fields. -/
def jFields : JValue → List (String × JValue)
  | .obj fs => fs
  | _ => []

/-- JS truthiness, as used by `notes || ""` and `system || undefined`. -/
def jsTruthy : JValue → Bool
  | .str s => s ≠ ""
  | .num q => q ≠ 0
  | .jbool b => b
  | .null => false
  | .arr _ => true
  | .obj _ => true

/-! ### Data model (src/database/schema.sql) -/

structure Customer where
  id : String
  name : String
  phone : String
  email : String
  previous_loans : Nat
  payment_history : String
deriving Repr, DecidableEq

structure Loan where
  id : String
  customer_id : String
  original_amount : Rat
  current_balance : Rat
  fees : Rat
  interest : Rat
  days_overdue : Nat
  disbursement_date : String
  due_date : String
  status : String
deriving Repr, DecidableEq

/-- The `ptpRecord` object built by `recordPTP` before insertion. -/
structure PTPDraft where
  customer_id : String
  session_id : String
  amount : Rat
  payment_date : String
  notes : String
  created_at : String
  status : String
deriving Repr, DecidableEq

/-- A persisted row of the `ptps` table: the draft plus the
SERIAL-generated `id`. The table has no uniqueness constraint on
(session_id, amount, payment_date) — only the primary key and
non-unique indexes (schema.sql). -/
structure PTPRow where
  id : Nat
  customer_id : String
  session_id : String
  amount : Rat
  payment_date : String
  notes : String
  status : String
  created_at : String
deriving Repr, DecidableEq

/-- The Data Store reached through the supabase client, plus a
reachability flag: when `reachable` is false every operation returns
an error, as a dropped connection does. -/
structure DB where
  reachable : Bool
  customers : List Customer
  loans : List Loan
  ptps : List PTPRow
  nextPtpId : Nat
deriving Repr, DecidableEq

/-- Supabase read `.from("customers").select("*").eq("id", key).single()`:
errors when the store is unreachable or when no row matches
(PostgREST returns an error for `.single()` on zero rows). -/
def dbSelectSingleCustomer (db : DB) (key : String) : Except String Customer :=
  if db.reachable then
    match db.customers.find? (fun c => c.id = key) with
    | some c => .ok c
    | none => .error "PGRST116: zero rows returned"
  else .error "connection error"

/-- Supabase read `.from("loans").select("*").eq("id", key).single()`. -/
def dbSelectSingleLoan (db : DB) (key : String) : Except String Loan :=
  if db.reachable then
    match db.loans.find? (fun l => l.id = key) with
    | some l => .ok l
    | none => .error "PGRST116: zero rows returned"
  else .error "connection error"

/-- Supabase write `.from("ptps").insert([ptpRecord]).select()`: appends one row with
the next SERIAL id and returns it. No duplicate detection of any kind:
the schema declares no unique constraint on the ptps table beyond the
generated primary key. -/
def dbInsertPtp (db : DB) (d : PTPDraft) : Except String (DB × PTPRow) :=
  if db.reachable then
    let row : PTPRow :=
      { id := db.nextPtpId, customer_id := d.customer_id,
        session_id := d.session_id, amount := d.amount,
        payment_date := d.payment_date, notes := d.notes,
        status := d.status, created_at := d.created_at }
    .ok ({ db with ptps := db.ptps ++ [row], nextPtpId := db.nextPtpId + 1 }, row)
  else .error "connection error"

/-! ### Tool handlers (index.ts lines 129-223, part_003) -/

/-- The hard-coded object returned by `getCustomerInfo` when the store
operation errors ("Return demo data for now if no DB connection"). -/
def demoCustomer (customer_id : String) : Customer :=
  { id := customer_id, name := "Sarah Omondi", phone := "+254712345678",
    email := "sarah.omondi@example.com", previous_loans := 3,
    payment_history := "2 on-time, 1 late" }

/-- The hard-coded object returned by `getLoanDetails` on store error. -/
def demoLoan (loan_id : String) : Loan :=
  { id := loan_id, customer_id := "CUST001", original_amount := 500,
    current_balance := 1125 / 2, fees := 75 / 2, interest := 25,
    days_overdue := 45, disbursement_date := "2024-10-15",
    due_date := "2024-11-15", status := "overdue" }

/-- Handler `getCustomerInfo`: single-row read; on any store error (unreachable
or no matching row) it returns the demo record instead of failing. -/
def getCustomerInfo (db : DB) (customer_id : String) : Customer :=
  match dbSelectSingleCustomer db customer_id with
  | .ok data => data
  | .error _ => demoCustomer customer_id

/-- Handler `getLoanDetails`: same shape as `getCustomerInfo`. -/
def getLoanDetails (db : DB) (loan_id : String) : Loan :=
  match dbSelectSingleLoan db loan_id with
  | .ok data => data
  | .error _ => demoLoan loan_id

/-- Arguments of `record_ptp` after zod validation
(`RecordPTPSchema`, index.ts lines 32-38): `notes` is optional and the
schema puts no constraint on `amount` beyond being a number. -/
structure RecordPTPParams where
  customer_id : String
  session_id : String
  amount : Rat
  payment_date : String
  notes : Option String
deriving Repr, DecidableEq

/-- JS `notes || ""` restricted to an optional string: an absent value
becomes `""`, and a present string is returned unchanged (the only
falsy string is `""`, which `||` also maps to `""`). -/
def jsOrEmpty : Option String → String
  | some s => s
  | none => ""

/-- Wall clock observed by the handler: `new Date().toISOString()` and
`Date.now()` at the invocation. -/
structure Clock where
  iso : String
  ms : Nat
deriving Repr, DecidableEq

/-- The `ptpRecord` object constructed by `recordPTP` (index.ts lines
180-188): fields copied from the params, `notes || ""`,
`created_at = now`, `status = "pending"`. -/
def mkPtpRecord (p : RecordPTPParams) (nowIso : String) : PTPDraft :=
  { customer_id := p.customer_id, session_id := p.session_id,
    amount := p.amount, payment_date := p.payment_date,
    notes := jsOrEmpty p.notes, created_at := nowIso, status := "pending" }

/-- Result of `recordPTP`: either `{success: true, ...data[0]}` with the
inserted row, or — on store error — the mock-success object
`{success: true, ptp_id: PTP_<Date.now()>, ...ptpRecord}` with nothing
persisted. -/
inductive RecordPTPResult where
  | inserted : PTPRow → RecordPTPResult
  | mocked : String → PTPDraft → RecordPTPResult
deriving Repr, DecidableEq

/-- Handler `recordPTP` (index.ts lines 177-206): build the draft, attempt one
insert; on error log and fabricate a success. -/
def recordPTP (db : DB) (p : RecordPTPParams) (now : Clock) : DB × RecordPTPResult :=
  let ptpRecord := mkPtpRecord p now.iso
  match dbInsertPtp db ptpRecord with
  | .ok (db2, row) => (db2, .inserted row)
  | .error _ => (db, .mocked ("PTP_" ++ toString now.ms) ptpRecord)

/-! ### call_claude (index.ts lines 208-223, part_003 lines 103-122) -/

structure ContentBlock where
  type : String
  text : String
deriving Repr, DecidableEq

structure Usage where
  input_tokens : Nat
  output_tokens : Nat
deriving Repr, DecidableEq

structure ProviderResponse where
  content : List ContentBlock
  model : String
  usage : Usage
deriving Repr, DecidableEq

/-- The request object passed to `anthropic.messages.create`. The
handler performs no validation of its own arguments, so `model` and
`messages` are forwarded as the raw JSON values found in the arguments
(`messages` is absent when the caller omitted it). -/
structure ProviderRequest where
  model : JValue
  max_tokens : Nat
  system : Option JValue
  messages : Option JValue

/-- The LLM Provider as seen by the handler: a function from the request
to either a response or a transport/auth/rate-limit error. -/
def Provider : Type := ProviderRequest → Except String ProviderResponse

/-- Default model of the MCP server's `callClaude`. -/
def defaultModelMcp : String := "claude-3-5-sonnet-20241022"

/-- Default model of the HTTP server's `callClaude` (part_003). -/
def defaultModelHttp : String := "claude-sonnet-4-20250514"

/-- JS `system || undefined`: a falsy system value (absent or `""`)
becomes undefined; anything truthy passes through. -/
def jsOrUndefined : Option JValue → Option JValue
  | some w => if jsTruthy w then some w else none
  | none => none

structure CallClaudeResult where
  content : String
  model : String
  usage : Usage
deriving Repr, DecidableEq

/-- Handler `callClaude`: destructure `{messages, system, model = default}` from
the raw arguments (no schema validation), forward to the provider with
`max_tokens: 1024` and `system: system || undefined`, and on success
return the first content block's text (or `""` when it is not a text
block), the model the provider reports, and its usage accounting. -/
def callClaude (provider : Provider) (defaultModel : String) (args : JValue) :
    Except String CallClaudeResult :=
  let fields := jFields args
  let modelArg : JValue :=
    match jGet fields "model" with
    | some v => v
    | none => .str defaultModel
  let req : ProviderRequest :=
    { model := modelArg, max_tokens := 1024,
      system := jsOrUndefined (jGet fields "system"),
      messages := jGet fields "messages" }
  match provider req with
  | .ok response =>
    match response.content with
    | [] => .error "TypeError: cannot read property of undefined"
    | block :: _ =>
      .ok { content := if block.type = "text" then block.text else "",
            model := response.model, usage := response.usage }
  | .error e => .error e

/-! ### Zod argument validation (index.ts lines 28-42)

`schema.parse(args)` throws on a missing required field or a wrongly
typed field; unknown keys are stripped. `z.number()` accepts every
number — negative and zero included — and `z.string().optional()`
accepts an absent field but rejects a present non-string. -/

/-- Zod validation `GetCustomerInfoSchema.parse`. -/
def parseGetCustomerInfo (args : JValue) : Except String String :=
  match args with
  | .obj fields =>
    match jGet fields "customer_id" with
    | some (.str s) => .ok s
    | _ => .error "ZodError: customer_id"
  | _ => .error "ZodError: expected object"

/-- Zod validation `GetLoanDetailsSchema.parse`. -/
def parseGetLoanDetails (args : JValue) : Except String String :=
  match args with
  | .obj fields =>
    match jGet fields "loan_id" with
    | some (.str s) => .ok s
    | _ => .error "ZodError: loan_id"
  | _ => .error "ZodError: expected object"

/-- Zod validation `RecordPTPSchema.parse`: four required fields, optional `notes`. -/
def parseRecordPTP (args : JValue) : Except String RecordPTPParams :=
  match args with
  | .obj fields =>
    match jGet fields "customer_id", jGet fields "session_id",
          jGet fields "amount", jGet fields "payment_date" with
    | some (.str c), some (.str s), some (.num a), some (.str d) =>
      match jGet fields "notes" with
      | none =>
        .ok { customer_id := c, session_id := s, amount := a,
              payment_date := d, notes := none }
      | some (.str n) =>
        .ok { customer_id := c, session_id := s, amount := a,
              payment_date := d, notes := some n }
      | some _ => .error "ZodError: notes"
    | _, _, _, _ => .error "ZodError: record_ptp"
  | _ => .error "ZodError: expected object"

/-! ### The tool registry and dispatcher (index.ts lines 44-126, 243-289) -/

/-- Names of the four registered tools (the `tools` array). -/
def toolNames : List String :=
  ["get_customer_info", "get_loan_details", "record_ptp", "call_claude"]

/-- Required fields of each tool's declared `inputSchema` in the
registry (`tools` array, index.ts lines 44-126). -/
def requiredFields (tool : String) : List String :=
  if tool = "get_customer_info" then ["customer_id"]
  else if tool = "get_loan_details" then ["loan_id"]
  else if tool = "record_ptp" then
    ["customer_id", "session_id", "amount", "payment_date"]
  else if tool = "call_claude" then ["messages"]
  else []

/-- Whether the arguments carry every field the declared schema marks
required (a necessary condition for satisfying the declared schema). -/
def satisfiesRequired (tool : String) (args : JValue) : Bool :=
  (requiredFields tool).all (fun k => (jGet (jFields args) k).isSome)

/-- Externally visible operations a dispatch performs: store reads,
store inserts, outbound provider calls. -/
inductive Effect where
  | storeRead : String → String → Effect
  | storeInsert : String → Effect
  | providerCall : Effect
deriving Repr, DecidableEq

/-- Write effects among the observable effects. -/
def isWriteEffect : Effect → Bool
  | .storeInsert _ => true
  | _ => false

/-- Domain payload of a successful dispatch, before JSON serialization
into the `{content: [...]}` envelope. -/
inductive ToolOutcome where
  | customer : Customer → ToolOutcome
  | loan : Loan → ToolOutcome
  | ptp : RecordPTPResult → ToolOutcome
  | claude : CallClaudeResult → ToolOutcome
deriving Repr, DecidableEq

/-- The `CallToolRequestSchema` handler of the MCP server (index.ts
lines 243-289): switch on the tool name; the three store tools zod-parse
their arguments before invoking the handler, `call_claude` invokes its
handler on the raw arguments with no validation, and any unknown name
throws `Unknown tool: <name>`, caught into an `isError` envelope
(modelled as the `.error` branch). Returns the updated store, the
effects performed, and the result-or-error envelope. -/
def dispatch (db : DB) (provider : Provider) (now : Clock)
    (name : String) (args : JValue) :
    DB × List Effect × Except String ToolOutcome :=
  if name = "get_customer_info" then
    match parseGetCustomerInfo args with
    | .ok cid =>
      (db, [.storeRead "customers" cid], .ok (.customer (getCustomerInfo db cid)))
    | .error e => (db, [], .error e)
  else if name = "get_loan_details" then
    match parseGetLoanDetails args with
    | .ok lid =>
      (db, [.storeRead "loans" lid], .ok (.loan (getLoanDetails db lid)))
    | .error e => (db, [], .error e)
  else if name = "record_ptp" then
    match parseRecordPTP args with
    | .ok p =>
      let r := recordPTP db p now
      (r.1, [.storeInsert "ptps"], .ok (.ptp r.2))
    | .error e => (db, [], .error e)
  else if name = "call_claude" then
    (db, [.providerCall],
     (callClaude provider defaultModelMcp args).map ToolOutcome.claude)
  else (db, [], .error ("Unknown tool: " ++ name))

/-! ### HTTP tool routing (part_003, `POST /tools/...`) -/

/-- Routing outcome of `POST /tools/<toolName>` in the HTTP server's
switch (part_003 lines 164-198): a known name selects that tool's
handler; any other name is answered immediately with HTTP 404 and an
`Unknown tool` error body, invoking no handler. -/
inductive HttpRouteResult where
  | invoke : String → HttpRouteResult
  | respond404 : String → HttpRouteResult
deriving Repr, DecidableEq

/-- The switch over `toolName` in the HTTP server. -/
def httpRouteTool (toolName : String) : HttpRouteResult :=
  if toolName = "get_customer_info" then .invoke "get_customer_info"
  else if toolName = "get_loan_details" then .invoke "get_loan_details"
  else if toolName = "record_ptp" then .invoke "record_ptp"
  else if toolName = "call_claude" then .invoke "call_claude"
  else .respond404 ("Unknown tool: " ++ toolName)

/-- The status the HTTP server writes before any handler runs: `some
404` on the unknown-tool branch, `none` (not yet determined) when a
handler is selected. -/
def httpImmediateStatus : HttpRouteResult → Option Nat
  | .invoke _ => none
  | .respond404 _ => some 404

/-! ### Convenience constructors and fixtures -/

/-- A well-typed `record_ptp` argument object, with `notes` present or
absent. -/
def mkPtpArgs (c s : String) (a : Rat) (d : String) (n : Option String) : JValue :=
  .obj ([("customer_id", .str c), ("session_id", .str s),
         ("amount", .num a), ("payment_date", .str d)]
        ++ (match n with | some v => [("notes", .str v)] | none => []))

/-- A well-typed `call_claude` argument object, with `system` and
`model` present or absent. -/
def mkClaudeArgs (messages : JValue) (sys : Option String) (model : Option String) : JValue :=
  .obj ([("messages", messages)]
        ++ (match sys with | some s => [("system", .str s)] | none => [])
        ++ (match model with | some m => [("model", .str m)] | none => []))

/-- The row `dbInsertPtp` appends for a given store state and params. -/
def insertedRow (db : DB) (p : RecordPTPParams) (now : Clock) : PTPRow :=
  { id := db.nextPtpId, customer_id := p.customer_id,
    session_id := p.session_id, amount := p.amount,
    payment_date := p.payment_date, notes := jsOrEmpty p.notes,
    status := "pending", created_at := now.iso }

/-- The `notes` field carried by a `recordPTP` result, on either branch. -/
def RecordPTPResult.notesField : RecordPTPResult → String
  | .inserted r => r.notes
  | .mocked _ d => d.notes

/-- The `notes` field of a dispatch outcome, when it is a PTP result. -/
def ptpResultNotes : Except String ToolOutcome → Option String
  | .ok (.ptp r) => some r.notesField
  | _ => none

/-- Seed customer CUST001 (src/unnamed/part_000 demo data). -/
def custSeed : Customer :=
  { id := "CUST001", name := "Sarah Omondi", phone := "+254712345678",
    email := "sarah.omondi@example.com", previous_loans := 3,
    payment_history := "2 on-time, 1 late" }

/-- Seed loan LOAN12345 (src/unnamed/part_000 demo data). -/
def loanSeed : Loan :=
  { id := "LOAN12345", customer_id := "CUST001", original_amount := 500,
    current_balance := 1125 / 2, fees := 75 / 2, interest := 25,
    days_overdue := 45, disbursement_date := "2024-10-15",
    due_date := "2024-11-15", status := "overdue" }

/-- A reachable store holding only the seed customer and loan. -/
def dbSeed : DB :=
  { reachable := true, customers := [custSeed], loans := [loanSeed],
    ptps := [], nextPtpId := 1 }

/-- An unreachable store (connection down). -/
def dbDown : DB :=
  { reachable := false, customers := [custSeed], loans := [loanSeed],
    ptps := [], nextPtpId := 1 }

/-- A provider whose every call fails (transport down). -/
def providerDown : Provider := fun _ => .error "ProviderError: transport"

/-- A fixed successful provider response with one text block. -/
def respFixture : ProviderResponse :=
  { content := [{ type := "text", text := "Hello from the model" }],
    model := "claude-3-5-sonnet-20241022", usage := { input_tokens := 12, output_tokens := 5 } }

/-- A provider that always answers with `respFixture`. -/
def providerFixture : Provider := fun _ => .ok respFixture

/-- A fixed clock for concrete runs. -/
def clock1 : Clock := { iso := "2024-12-20T10:00:00.000Z", ms := 1734688800000 }

/-! ### Helper lemmas -/

/-- Well-typed `record_ptp` arguments parse to exactly their fields. -/
theorem parseRecordPTP_mkPtpArgs (c s : String) (a : Rat) (d : String) (n : Option String) :
    parseRecordPTP (mkPtpArgs c s a d n) =
      .ok { customer_id := c, session_id := s, amount := a,
            payment_date := d, notes := n } := by
  cases n <;> rfl

/-- Running `recordPTP` against a reachable store appends exactly one row and
returns it. -/
theorem recordPTP_reachable (db : DB) (p : RecordPTPParams) (now : Clock)
    (h : db.reachable = true) :
    recordPTP db p now =
      ({ db with ptps := db.ptps ++ [insertedRow db p now],
                 nextPtpId := db.nextPtpId + 1 },
       .inserted (insertedRow db p now)) := by
  simp [recordPTP, dbInsertPtp, h, insertedRow, mkPtpRecord]

/-- Running `recordPTP` against an unreachable store persists nothing and
fabricates a success. -/
theorem recordPTP_unreachable (db : DB) (p : RecordPTPParams) (now : Clock)
    (h : db.reachable = false) :
    recordPTP db p now =
      (db, .mocked ("PTP_" ++ toString now.ms) (mkPtpRecord p now.iso)) := by
  simp [recordPTP, dbInsertPtp, h]

/-- Dispatching `record_ptp` with parseable arguments runs the handler
and reports one insert effect. -/
theorem dispatch_record_ptp (db : DB) (P : Provider) (now : Clock)
    (args : JValue) (p : RecordPTPParams) (hp : parseRecordPTP args = .ok p) :
    dispatch db P now "record_ptp" args =
      ((recordPTP db p now).1, [.storeInsert "ptps"],
       .ok (.ptp (recordPTP db p now).2)) := by
  simp [dispatch, hp]

/-- Dispatching well-typed `record_ptp` arguments against a reachable
store: one row appended, one insert effect, the row returned. -/
theorem dispatch_mkPtpArgs_reachable (db : DB) (P : Provider) (now : Clock)
    (c s : String) (a : Rat) (d : String) (nt : Option String)
    (h : db.reachable = true) :
    dispatch db P now "record_ptp" (mkPtpArgs c s a d nt) =
      ({ db with ptps := db.ptps ++ [insertedRow db ⟨c, s, a, d, nt⟩ now],
                 nextPtpId := db.nextPtpId + 1 },
       [.storeInsert "ptps"],
       .ok (.ptp (.inserted (insertedRow db ⟨c, s, a, d, nt⟩ now)))) := by
  rw [dispatch_record_ptp _ _ _ _ _ (parseRecordPTP_mkPtpArgs c s a d nt),
      recordPTP_reachable _ _ _ h]

/-- A fixed `record_ptp` argument object used in concrete runs. -/
def ptpArgsDup : JValue := mkPtpArgs "CUST001" "session_1" 200 "2025-01-15" none

/-- Concrete `record_ptp` params matching `ptpArgsDup`. -/
def pFixture : RecordPTPParams :=
  { customer_id := "CUST001", session_id := "session_1", amount := 200,
    payment_date := "2025-01-15", notes := none }

/-! ### Claims -/

/-- C1: against the code, dispatching `record_ptp` twice with identical
session_id, amount and payment_date does NOT leave exactly one persisted
PTP record: the handler inserts unconditionally and the `ptps` table has
no uniqueness constraint, so the concrete double dispatch below leaves
two rows, refuting "exactly one persisted PTP record". -/
theorem C1_counterexample :
    ((dispatch (dispatch dbSeed providerDown clock1 "record_ptp" ptpArgsDup).1
        providerDown clock1 "record_ptp" ptpArgsDup).1).ptps.length = 2
    ∧ ¬ ((dispatch (dispatch dbSeed providerDown clock1 "record_ptp" ptpArgsDup).1
        providerDown clock1 "record_ptp" ptpArgsDup).1).ptps.length = 1 := by
  exact ⟨rfl, by decide⟩

/-- C1 amended: dispatching `record_ptp` twice with identical
session_id, amount and payment_date against a reachable store results in
two persisted PTP rows — the second dispatch is not suppressed as a
duplicate (the code performs no deduplication and schema.sql declares no
uniqueness on session_id + amount + payment_date). -/
theorem C1_amended (db : DB) (P : Provider) (n1 n2 : Clock)
    (c s d : String) (a : Rat) (nt : Option String)
    (h : db.reachable = true) :
    ((dispatch (dispatch db P n1 "record_ptp" (mkPtpArgs c s a d nt)).1
        P n2 "record_ptp" (mkPtpArgs c s a d nt)).1).ptps.length
      = db.ptps.length + 2 := by
  rw [dispatch_mkPtpArgs_reachable db P n1 c s a d nt h]
  dsimp only
  rw [dispatch_mkPtpArgs_reachable
        { db with ptps := db.ptps ++ [insertedRow db ⟨c, s, a, d, nt⟩ n1],
                  nextPtpId := db.nextPtpId + 1 } P n2 c s a d nt h]
  simp

/-- C1 amended, at a concrete double dispatch. -/
theorem C1_amended_witness :
    ((dispatch (dispatch dbSeed providerDown clock1 "record_ptp" ptpArgsDup).1
        providerDown clock1 "record_ptp" ptpArgsDup).1).ptps.length
      = dbSeed.ptps.length + 2 :=
  C1_amended dbSeed providerDown clock1 clock1 "CUST001" "session_1"
    "2025-01-15" 200 none rfl

/-- C2: against the code, a failing store operation does not surface as
a `HandlerFailure`: with the store unreachable, `get_customer_info`
returns the fabricated demo record ("Sarah Omondi") inside a successful
envelope, refuting "fails with HandlerFailure ... never silently
substitutes placeholder/demo data". -/
theorem C2_counterexample :
    (dispatch dbDown providerDown clock1 "get_customer_info"
        (.obj [("customer_id", .str "CUST001")])).2.2
      = .ok (.customer (demoCustomer "CUST001"))
    ∧ (demoCustomer "CUST001").name = "Sarah Omondi" :=
  ⟨rfl, rfl⟩

/-- C2 amended: when the underlying store operation fails, the handlers
silently substitute placeholder data — `get_customer_info` and
`get_loan_details` return the hard-coded demo records, and `record_ptp`
returns a fabricated success with nothing persisted; only `call_claude`
propagates the underlying provider failure as an error envelope. -/
theorem C2_amended (db : DB) (P : Provider) (now : Clock) (cid lid : String)
    (p : RecordPTPParams) (kargs : JValue) (e : String)
    (hdb : db.reachable = false) (hP : ∀ req, P req = .error e) :
    (dispatch db P now "get_customer_info" (.obj [("customer_id", .str cid)])).2.2
        = .ok (.customer (demoCustomer cid))
  ∧ (dispatch db P now "get_loan_details" (.obj [("loan_id", .str lid)])).2.2
        = .ok (.loan (demoLoan lid))
  ∧ dispatch db P now "record_ptp"
        (mkPtpArgs p.customer_id p.session_id p.amount p.payment_date p.notes)
      = (db, [.storeInsert "ptps"],
         .ok (.ptp (.mocked ("PTP_" ++ toString now.ms) (mkPtpRecord p now.iso))))
  ∧ (dispatch db P now "call_claude" kargs).2.2 = .error e := by
  refine ⟨?_, ?_, ?_, ?_⟩
  · simp [dispatch, parseGetCustomerInfo, jGet, getCustomerInfo,
          dbSelectSingleCustomer, hdb]
  · simp [dispatch, parseGetLoanDetails, jGet, getLoanDetails,
          dbSelectSingleLoan, hdb]
  · rw [dispatch_record_ptp _ _ _ _ p (parseRecordPTP_mkPtpArgs _ _ _ _ _),
        recordPTP_unreachable _ _ _ hdb]
  · simp [dispatch, callClaude, hP, Except.map]

/-- C2 amended, at a concrete unreachable store. -/
theorem C2_amended_witness :
    (dispatch dbDown providerDown clock1 "get_loan_details"
        (.obj [("loan_id", .str "LOAN12345")])).2.2
      = .ok (.loan (demoLoan "LOAN12345")) :=
  (C2_amended dbDown providerDown clock1 "CUST001" "LOAN12345" pFixture
    (.obj []) "ProviderError: transport" rfl (fun _ => rfl)).2.1

/-- A `record_ptp` argument object with a non-positive amount. -/
def negAmountArgs : JValue := mkPtpArgs "CUST001" "session_1" (-5) "2025-01-15" none

/-- C3: against the code, `record_ptp` with `amount ≤ 0` is NOT
rejected: `z.number()` places no positivity constraint, so the concrete
dispatch with amount −5 succeeds and inserts a row, refuting "dispatch
fails ... and no PTP row is inserted". -/
theorem C3_counterexample :
    (dispatch dbSeed providerDown clock1 "record_ptp" negAmountArgs).2.2
      = .ok (.ptp (.inserted
          { id := 1, customer_id := "CUST001", session_id := "session_1",
            amount := -5, payment_date := "2025-01-15", notes := "",
            status := "pending", created_at := "2024-12-20T10:00:00.000Z" }))
    ∧ (dispatch dbSeed providerDown clock1 "record_ptp" negAmountArgs).1.ptps.length = 1 :=
  ⟨rfl, rfl⟩

/-- C3 amended: `record_ptp` performs no amount validation — for every
amount, a non-positive one included, schema validation passes and
dispatch against a reachable store inserts the row and reports
success. -/
theorem C3_amended (db : DB) (P : Provider) (now : Clock)
    (c s d : String) (a : Rat) (nt : Option String)
    (h : db.reachable = true) (ha : a ≤ 0) :
    (dispatch db P now "record_ptp" (mkPtpArgs c s a d nt)).2.2
        = .ok (.ptp (.inserted (insertedRow db ⟨c, s, a, d, nt⟩ now)))
    ∧ (dispatch db P now "record_ptp" (mkPtpArgs c s a d nt)).1.ptps
        = db.ptps ++ [insertedRow db ⟨c, s, a, d, nt⟩ now] := by
  rw [dispatch_record_ptp _ _ _ _ _ (parseRecordPTP_mkPtpArgs c s a d nt),
      recordPTP_reachable _ _ _ h]
  exact ⟨rfl, rfl⟩

/-- C3 amended, at amount −5 against the seeded store. -/
theorem C3_amended_witness :
    (dispatch dbSeed providerDown clock1 "record_ptp" negAmountArgs).2.2
      = .ok (.ptp (.inserted
          (insertedRow dbSeed
            ⟨"CUST001", "session_1", -5, "2025-01-15", none⟩ clock1))) :=
  (C3_amended dbSeed providerDown clock1 "CUST001" "session_1" "2025-01-15"
    (-5) none rfl (by norm_num)).1

/-- C4: against the code, an unknown id with a reachable store does NOT
yield a distinct NotFound condition: the `.single()` read errors on zero
rows, and the handler answers that error with the fabricated demo
record, refuting "never a fabricated customer record". -/
theorem C4_counterexample :
    dbSeed.reachable = true
  ∧ dbSeed.customers.find? (fun c => c.id = "CUST999") = none
  ∧ (dispatch dbSeed providerDown clock1 "get_customer_info"
        (.obj [("customer_id", .str "CUST999")])).2.2
      = .ok (.customer (demoCustomer "CUST999")) :=
  ⟨rfl, rfl, rfl⟩

/-- C4 amended: for an id not present in the reachable store,
`get_customer_info` returns the hard-coded demo customer record inside a
successful envelope (`get_loan_details` likewise returns the demo loan);
not-found is indistinguishable from a store failure, and no `NotFound`
condition exists. -/
theorem C4_amended (db : DB) (P : Provider) (now : Clock) (cid lid : String)
    (hdb : db.reachable = true)
    (hc : db.customers.find? (fun c => c.id = cid) = none)
    (hl : db.loans.find? (fun l => l.id = lid) = none) :
    (dispatch db P now "get_customer_info" (.obj [("customer_id", .str cid)])).2.2
        = .ok (.customer (demoCustomer cid))
  ∧ (dispatch db P now "get_loan_details" (.obj [("loan_id", .str lid)])).2.2
        = .ok (.loan (demoLoan lid)) := by
  constructor
  · simp [dispatch, parseGetCustomerInfo, jGet, getCustomerInfo,
          dbSelectSingleCustomer, hdb, hc]
  · simp [dispatch, parseGetLoanDetails, jGet, getLoanDetails,
          dbSelectSingleLoan, hdb, hl]

/-- C4 amended, at the concrete unknown ids CUST999 and LOAN99999. -/
theorem C4_amended_witness :
    (dispatch dbSeed providerDown clock1 "get_loan_details"
        (.obj [("loan_id", .str "LOAN99999")])).2.2
      = .ok (.loan (demoLoan "LOAN99999")) :=
  (C4_amended dbSeed providerDown clock1 "CUST999" "LOAN99999"
    rfl rfl rfl).2

/-- C5: a valid `record_ptp` dispatch (positive amount, future
payment_date, reachable store) succeeds: the handler builds the record
with `status = "pending"` and `created_at = now`, inserts exactly that
row with the generated id, and returns it with customer_id, session_id,
amount, payment_date and notes echoing the input (`notes` is the
supplied string, or `""` when omitted). -/
theorem C5_confirmed (db : DB) (P : Provider) (now : Clock)
    (c s d : String) (a : Rat) (nt : Option String)
    (h : db.reachable = true) (ha : 0 < a) (hd : now.iso.data < d.data) :
    dispatch db P now "record_ptp" (mkPtpArgs c s a d nt)
      = ({ db with ptps := db.ptps ++ [insertedRow db ⟨c, s, a, d, nt⟩ now],
                   nextPtpId := db.nextPtpId + 1 },
         [.storeInsert "ptps"],
         .ok (.ptp (.inserted
           { id := db.nextPtpId, customer_id := c, session_id := s,
             amount := a, payment_date := d, notes := jsOrEmpty nt,
             status := "pending", created_at := now.iso }))) :=
  dispatch_mkPtpArgs_reachable db P now c s a d nt h

/-- C5, at concrete valid arguments with notes supplied. -/
theorem C5_confirmed_witness :
    (dispatch dbSeed providerFixture clock1 "record_ptp"
        (mkPtpArgs "CUST001" "session_1" 200 "2025-01-15" (some "agreed on call"))).2.2
      = .ok (.ptp (.inserted
          { id := 1, customer_id := "CUST001", session_id := "session_1",
            amount := 200, payment_date := "2025-01-15",
            notes := "agreed on call", status := "pending",
            created_at := "2024-12-20T10:00:00.000Z" })) := by
  rw [C5_confirmed dbSeed providerFixture clock1 "CUST001" "session_1"
        "2025-01-15" 200 (some "agreed on call") rfl (by norm_num) (by decide)]
  rfl

/-- C6: dispatching a name outside the registry fails with the
`Unknown tool` error on both surfaces — the MCP dispatcher produces the
error envelope with no effects and an unchanged store, and the HTTP
server's switch answers 404 immediately, selecting no handler. -/
theorem C6_confirmed (db : DB) (P : Provider) (now : Clock)
    (name : String) (args : JValue) (h : name ∉ toolNames) :
    dispatch db P now name args = (db, [], .error ("Unknown tool: " ++ name))
  ∧ httpRouteTool name = .respond404 ("Unknown tool: " ++ name)
  ∧ httpImmediateStatus (httpRouteTool name) = some 404 := by
  simp only [toolNames, List.mem_cons, List.not_mem_nil, or_false, not_or] at h
  obtain ⟨h1, h2, h3, h4⟩ := h
  refine ⟨?_, ?_, ?_⟩ <;>
    simp [dispatch, httpRouteTool, httpImmediateStatus, h1, h2, h3, h4]

/-- C6, at the concrete unknown tool name "drop_database". -/
theorem C6_confirmed_witness :
    dispatch dbSeed providerDown clock1 "drop_database" (.obj [])
      = (dbSeed, [], .error ("Unknown tool: " ++ "drop_database")) :=
  (C6_confirmed dbSeed providerDown clock1 "drop_database" (.obj [])
    (by decide)).1

/-- C7: against the code, schema-invalid arguments do not always stop
the handler: `call_claude`'s arguments are never validated, so the
concrete dispatch below, whose empty argument object lacks the required
`messages` field of the declared schema, still invokes the handler and
performs the outbound provider call, refuting "the bound handler is not
invoked". -/
theorem C7_counterexample :
    satisfiesRequired "call_claude" (.obj []) = false
  ∧ (dispatch dbSeed providerDown clock1 "call_claude" (.obj [])).2.1
      = [.providerCall] :=
  ⟨rfl, rfl⟩

/-- C7 amended: in the MCP dispatcher, `get_customer_info`,
`get_loan_details` and `record_ptp` zod-validate their arguments and a
validation failure yields an error envelope with no handler invocation,
no effect and an unchanged store; `call_claude` however performs no
argument validation and its handler (one provider call) is invoked for
every argument object. -/
theorem C7_amended (db : DB) (P : Provider) (now : Clock) (args : JValue)
    (e1 e2 e3 : String)
    (h1 : parseGetCustomerInfo args = .error e1)
    (h2 : parseGetLoanDetails args = .error e2)
    (h3 : parseRecordPTP args = .error e3) :
    dispatch db P now "get_customer_info" args = (db, [], .error e1)
  ∧ dispatch db P now "get_loan_details" args = (db, [], .error e2)
  ∧ dispatch db P now "record_ptp" args = (db, [], .error e3)
  ∧ (dispatch db P now "call_claude" args).2.1 = [.providerCall] := by
  refine ⟨?_, ?_, ?_, ?_⟩ <;> simp [dispatch, h1, h2, h3]

/-- C7 amended, at a concrete argument object failing every schema. -/
theorem C7_amended_witness :
    dispatch dbSeed providerDown clock1 "record_ptp" (.obj [("bogus", .null)])
      = (dbSeed, [], .error "ZodError: record_ptp") :=
  (C7_amended dbSeed providerDown clock1 (.obj [("bogus", .null)])
    "ZodError: customer_id" "ZodError: loan_id" "ZodError: record_ptp"
    rfl rfl rfl).2.2.1

/-- C8: side-effect frame of the four handlers. `get_customer_info` and
`get_loan_details` leave the Data Store unchanged and perform no write
effect for every argument object; a valid `record_ptp` against a
reachable store performs exactly one insert effect and appends exactly
one row; `call_claude` performs exactly one outbound provider call and
leaves the Data Store unchanged. -/
theorem C8_confirmed (db : DB) (P : Provider) (now : Clock)
    (argsC argsL argsK : JValue) (c s d : String) (a : Rat) (nt : Option String)
    (h : db.reachable = true) :
    (dispatch db P now "get_customer_info" argsC).1 = db
  ∧ ((dispatch db P now "get_customer_info" argsC).2.1.filter isWriteEffect) = []
  ∧ (dispatch db P now "get_loan_details" argsL).1 = db
  ∧ ((dispatch db P now "get_loan_details" argsL).2.1.filter isWriteEffect) = []
  ∧ (dispatch db P now "record_ptp" (mkPtpArgs c s a d nt)).2.1
      = [.storeInsert "ptps"]
  ∧ (dispatch db P now "record_ptp" (mkPtpArgs c s a d nt)).1.ptps
      = db.ptps ++ [insertedRow db ⟨c, s, a, d, nt⟩ now]
  ∧ (dispatch db P now "call_claude" argsK).2.1 = [.providerCall]
  ∧ (dispatch db P now "call_claude" argsK).1 = db := by
  refine ⟨?_, ?_, ?_, ?_, ?_, ?_, ?_, ?_⟩
  · cases hpc : parseGetCustomerInfo argsC <;> simp [dispatch, hpc]
  · cases hpc : parseGetCustomerInfo argsC <;>
      simp [dispatch, hpc, isWriteEffect, List.filter]
  · cases hpl : parseGetLoanDetails argsL <;> simp [dispatch, hpl]
  · cases hpl : parseGetLoanDetails argsL <;>
      simp [dispatch, hpl, isWriteEffect, List.filter]
  · rw [dispatch_mkPtpArgs_reachable db P now c s a d nt h]
  · rw [dispatch_mkPtpArgs_reachable db P now c s a d nt h]
  · simp [dispatch]
  · simp [dispatch]

/-- C8, at concrete arguments against the seeded store. -/
theorem C8_confirmed_witness :
    (dispatch dbSeed providerFixture clock1 "get_customer_info"
        (.obj [("customer_id", .str "CUST001")])).1 = dbSeed :=
  (C8_confirmed dbSeed providerFixture clock1
    (.obj [("customer_id", .str "CUST001")])
    (.obj [("loan_id", .str "LOAN12345")]) (.obj [])
    "CUST001" "session_1" "2025-01-15" 200 none rfl).1

/-- Applying `callClaude` to well-typed arguments forwards `messages`, the
truthy `system`, and `model` with the configured default when omitted,
and maps the provider's answer through the response shaping. -/
theorem callClaude_mkClaudeArgs (P : Provider) (dm : String) (msgs : JValue)
    (sys model : Option String) (hsys : sys ≠ some "") :
    callClaude P dm (mkClaudeArgs msgs sys model)
      = match P { model := .str (model.getD dm), max_tokens := 1024,
                  system := sys.map JValue.str, messages := some msgs } with
        | .ok response =>
          match response.content with
          | [] => .error "TypeError: cannot read property of undefined"
          | block :: _ =>
            .ok { content := if block.type = "text" then block.text else "",
                  model := response.model, usage := response.usage }
        | .error e => .error e := by
  cases sys with
  | none => cases model <;> rfl
  | some s₀ =>
    have hs : s₀ ≠ "" := fun hh => hsys (by rw [hh])
    cases model <;>
      simp [callClaude, mkClaudeArgs, jFields, jGet, List.find?,
            jsOrUndefined, jsTruthy, hs, Option.getD, Option.map]

/-- C9: `call_claude` forwards `messages`, the optional `system` and the
optional `model` — defaulting to the configured model identifier when
omitted — to the LLM Provider with `max_tokens = 1024`, and on a
successful response whose first content block is text it returns that
generated text, the model the provider actually used, and the provider's
token-usage accounting. -/
theorem C9_confirmed (db : DB) (now : Clock) (msgs : JValue)
    (sys model : Option String) (P : Provider) (resp : ProviderResponse)
    (blk : ContentBlock) (rest : List ContentBlock)
    (hsys : sys ≠ some "")
    (hP : P { model := .str (model.getD defaultModelMcp), max_tokens := 1024,
              system := sys.map JValue.str, messages := some msgs } = .ok resp)
    (hc : resp.content = blk :: rest) (ht : blk.type = "text") :
    dispatch db P now "call_claude" (mkClaudeArgs msgs sys model)
      = (db, [.providerCall],
         .ok (.claude { content := blk.text, model := resp.model,
                        usage := resp.usage })) := by
  have hcc := callClaude_mkClaudeArgs P defaultModelMcp msgs sys model hsys
  simp only [hP, hc, ht, eq_self_iff_true, if_true] at hcc
  simp [dispatch, hcc, Except.map]

/-- C9, at concrete messages with a system prompt, the model omitted,
and a fixed provider answer. -/
theorem C9_confirmed_witness :
    dispatch dbSeed providerFixture clock1 "call_claude"
        (mkClaudeArgs (.arr [.obj [("role", .str "user"), ("content", .str "hi")]])
          (some "Be concise") none)
      = (dbSeed, [.providerCall],
         .ok (.claude { content := "Hello from the model",
                        model := "claude-3-5-sonnet-20241022",
                        usage := { input_tokens := 12, output_tokens := 5 } })) :=
  C9_confirmed dbSeed clock1
    (.arr [.obj [("role", .str "user"), ("content", .str "hi")]])
    (some "Be concise") none providerFixture respFixture
    { type := "text", text := "Hello from the model" } []
    (by decide) rfl rfl rfl

/-- C10: the `notes || ""` default — dispatching `record_ptp` without
the optional `notes` argument yields a record whose notes field is the
empty string (never null or absent), and a supplied `notes` string is
passed through unchanged; this holds on both the inserted and the
mocked-result branch. -/
theorem C10_confirmed (db : DB) (P : Provider) (now : Clock)
    (c s d : String) (a : Rat) (n : String) :
    ptpResultNotes ((dispatch db P now "record_ptp" (mkPtpArgs c s a d none)).2.2)
        = some ""
  ∧ ptpResultNotes ((dispatch db P now "record_ptp" (mkPtpArgs c s a d (some n))).2.2)
        = some n := by
  constructor <;>
  · rw [dispatch_record_ptp _ _ _ _ _ (parseRecordPTP_mkPtpArgs c s a d _)]
    rcases hdb : db.reachable with _ | _
    · rw [recordPTP_unreachable _ _ _ hdb]
      simp [ptpResultNotes, RecordPTPResult.notesField, mkPtpRecord, jsOrEmpty]
    · rw [recordPTP_reachable _ _ _ hdb]
      simp [ptpResultNotes, RecordPTPResult.notesField, insertedRow, jsOrEmpty]

end RecoveriesAgent
